import Mathlib

/-!
Shallow embedding of `src/ml_model/feature_engineering.py` (class
`FraudFeatureEngineer`) of the fraud-detection pipeline, together with
theorems settling the specification claims about it.

Tables are lists of rows; timestamps are seconds since the Unix epoch, with
`none` playing the role of pandas `NaT` after `pd.to_datetime(..., errors="coerce")`.
-/

namespace FraudDetection

/-- A cell of the caller's `timestamp` column: either still the raw string the
caller supplied, or the result of `pd.to_datetime(..., errors="coerce")`
(`none` playing the role of `NaT`). -/
inductive TsVal where
  | raw (s : String)
  | parsed (t : Option Nat)
deriving DecidableEq

/-- One transaction row, polymorphic in the type of the timestamp cell.
The eight fields are the eight required columns of the source; further
caller-side columns are immaterial to every claim and are not modelled. -/
structure Row (τ : Type) where
  txn_id : Nat
  account_id : Nat
  amount : ℚ
  tx_type : String
  channel : String
  timestamp : τ
  device_id : String
  location : String
deriving DecidableEq

/-- A row of the caller's table (timestamp cell possibly still raw). -/
abbrev CallerRow := Row TsVal

/-- A row of the engineer's working table (`self.df`), timestamp coerced. -/
abbrev DataRow := Row (Option Nat)

/-- The eight required columns checked in `FraudFeatureEngineer.__init__`. -/
def requiredCols : List String :=
  ["txn_id", "account_id", "amount", "timestamp", "tx_type", "channel", "device_id", "location"]

/-- `required_cols - set(df.columns)` from `__init__`. -/
def missingCols (cols : List String) : List String :=
  requiredCols.filter (fun c => !(cols.contains c))

/-- `pd.to_datetime(x, errors="coerce")` on one cell: a raw string goes
through the parser `parse` (failure yields `NaT`); an already parsed cell is
unchanged. -/
def coerceTs (parse : String → Option Nat) : TsVal → Option Nat
  | .raw s => parse s
  | .parsed t => t

/-- Rebuild a row with a transformed timestamp cell; every other column is
copied unchanged. -/
def mapTsCell {τ σ : Type} (f : τ → σ) (r : Row τ) : Row σ :=
  { txn_id := r.txn_id, account_id := r.account_id, amount := r.amount,
    tx_type := r.tx_type, channel := r.channel, timestamp := f r.timestamp,
    device_id := r.device_id, location := r.location }

/-- `FraudFeatureEngineer.__init__`.  `cols` is `df.columns` (validation
consults only the column names); on success the first component is the
caller's table after the in-place line
`df["timestamp"] = pd.to_datetime(df["timestamp"], errors="coerce")`, and the
second is the engineer's own copy `self.df = df.copy()`.  On a failed
validation the `ValueError` carries the whole set of missing column names. -/
def engineerInit (parse : String → Option Nat) (cols : List String)
    (df : List CallerRow) : Except (List String) (List CallerRow × List DataRow) :=
  if missingCols cols = [] then
    Except.ok
      (df.map (mapTsCell (fun t => TsVal.parsed (coerceTs parse t))),
       df.map (mapTsCell (coerceTs parse)))
  else
    Except.error (missingCols cols)

/-- An enriched row: the original columns plus every derived column the
pipeline adds.  A column a step has not yet written holds its initial value
(`none` resp. `0`), mirroring `tx_24h_window` being initialised to `0`
before the rolling loop. -/
structure ERow where
  txn_id : Nat
  account_id : Nat
  amount : ℚ
  tx_type : String
  channel : String
  timestamp : Option Nat
  device_id : String
  location : String
  hour : Option Nat
  day_of_week : Option Nat
  is_high_value : Nat
  tx_count_24h : Nat
  avg_tx_amount : ℚ
  unique_devices : Nat
  unique_locations : Nat
  tx_24h_window : Nat
deriving DecidableEq

/-- Lift a working-table row into an enriched row with all derived columns
at their initial values. -/
def toERow (r : DataRow) : ERow :=
  { txn_id := r.txn_id, account_id := r.account_id, amount := r.amount,
    tx_type := r.tx_type, channel := r.channel, timestamp := r.timestamp,
    device_id := r.device_id, location := r.location,
    hour := none, day_of_week := none, is_high_value := 0, tx_count_24h := 0,
    avg_tx_amount := 0, unique_devices := 0, unique_locations := 0,
    tx_24h_window := 0 }

/-- The original eight columns of an enriched row. -/
def ERow.base (r : ERow) : DataRow :=
  { txn_id := r.txn_id, account_id := r.account_id, amount := r.amount,
    tx_type := r.tx_type, channel := r.channel, timestamp := r.timestamp,
    device_id := r.device_id, location := r.location }

/-- `timestamp.dt.hour` (undefined on `NaT`). -/
def hourOf : Option Nat → Option Nat
  | none => none
  | some t => some (t / 3600 % 24)

/-- `timestamp.dt.dayofweek`, Monday = 0 (the Unix epoch fell on a
Thursday, weekday 3). -/
def dayOfWeekOf : Option Nat → Option Nat
  | none => none
  | some t => some ((t / 86400 + 3) % 7)

/-- `add_time_features`. -/
def addTimeFeatures (df : List ERow) : List ERow :=
  df.map (fun r =>
    { r with hour := hourOf r.timestamp, day_of_week := dayOfWeekOf r.timestamp })

/-- `df["amount"].mean()` over the whole table. -/
def meanAmount (df : List ERow) : ℚ :=
  (df.map ERow.amount).sum / df.length

/-- `add_high_value_flag`: flag rows with `amount > mean * 3`. -/
def addHighValueFlag (df : List ERow) : List ERow :=
  df.map (fun r => { r with is_high_value := if meanAmount df * 3 < r.amount then 1 else 0 })

/-- The rows of `df` sharing account `acc` (one `groupby("account_id")`
group). -/
def accountGroup (df : List ERow) (acc : Nat) : List ERow :=
  df.filter (fun r => r.account_id == acc)

/-- `add_behavioral_features`: per-account transaction count (the column is
named `tx_count_24h` in the source but is the plain group size) and
per-account mean amount. -/
def addBehavioralFeatures (df : List ERow) : List ERow :=
  df.map (fun r =>
    { r with
      tx_count_24h := (accountGroup df r.account_id).length,
      avg_tx_amount := ((accountGroup df r.account_id).map ERow.amount).sum /
        (accountGroup df r.account_id).length })

/-- `add_device_and_location_features`: per-account numbers of distinct
devices and locations (`nunique`). -/
def addDeviceAndLocationFeatures (df : List ERow) : List ERow :=
  df.map (fun r =>
    { r with
      unique_devices := ((accountGroup df r.account_id).map ERow.device_id).dedup.length,
      unique_locations := ((accountGroup df r.account_id).map ERow.location).dedup.length })

/-- `NaT`-last comparison of timestamp cells (pandas `na_position="last"`). -/
def tsLEb : Option Nat → Option Nat → Bool
  | _, none => true
  | none, some _ => false
  | some s, some t => s ≤ t

/-- The `sort_values(by=["account_id", "timestamp"])` order. -/
def rowLE (a b : ERow) : Prop :=
  a.account_id < b.account_id ∨
    (a.account_id = b.account_id ∧ tsLEb a.timestamp b.timestamp = true)

instance : DecidableRel rowLE := fun a b => by
  unfold rowLE; infer_instance

/-- The sort at the top of `add_velocity_features`. -/
def sortValues (df : List ERow) : List ERow :=
  List.insertionSort rowLE df

/-- Membership of a row at time `s` in the rolling `"1D"` window ending at
time `t`: pandas offset-based windows default to `closed="right"`, so the
window is the half-open interval `(t - 86400, t]` and `s` qualifies iff
`t < s + 86400`.  `NaT` cells never reach this test (the rolling call
raises first). -/
def inWindow : Option Nat → Option Nat → Bool
  | some s, some t => t < s + 86400
  | _, _ => false

/-- The value `rolling("1D").count()` assigns to row `r`, given the rows at
positions up to and including `r`'s own in the sorted table. -/
def windowCount (upto : List ERow) (r : ERow) : Nat :=
  (upto.filter
    (fun s => s.account_id == r.account_id && inWindow s.timestamp r.timestamp)).length

/-- Walk the sorted table assigning each row its rolling count, computed
from the rows at positions up to and including its own. -/
def assignWindows (l : List ERow) : List ERow :=
  l.mapIdx (fun i r => { r with tx_24h_window := windowCount (l.take (i + 1)) r })

/-- `add_velocity_features`: sort by (account, timestamp), then per account
run `rolling("1D").count()` over the timestamp index.  pandas raises
`ValueError` when the rolling time index contains `NaT` (a trailing `NaT`
also breaks the required monotonicity), which aborts the whole call. -/
def addVelocityFeatures (df : List ERow) : Except String (List ERow) :=
  if (sortValues df).any (fun r => r.timestamp.isNone) then
    Except.error "window must be monotonic"
  else
    Except.ok (assignWindows (sortValues df))

/-- `build_features`: the five steps in source order, velocity last. -/
def buildFeatures (df : List DataRow) : Except String (List ERow) :=
  addVelocityFeatures (addDeviceAndLocationFeatures (addBehavioralFeatures
    (addHighValueFlag (addTimeFeatures (df.map toERow)))))

/-- Construct the engineer on a caller table and run `build_features`:
the caller's (possibly mutated) table alongside the pipeline result. -/
def engineerRun (parse : String → Option Nat) (cols : List String)
    (df : List CallerRow) :
    Except (List String) (List CallerRow × Except String (List ERow)) :=
  (engineerInit parse cols df).map (fun p => (p.1, buildFeatures p.2))

/-- The first four enrichment steps in source order (everything
`build_features` does before `add_velocity_features`). -/
def prep (df : List DataRow) : List ERow :=
  addDeviceAndLocationFeatures (addBehavioralFeatures
    (addHighValueFlag (addTimeFeatures (df.map toERow))))

/-- Modelled from the claim's wording (closed interval): the number of
transactions of the row's account whose timestamp lies in the CLOSED
interval `[t - 24h, t]`, counted over the whole table.  This formalises the
spec sentence, to be compared against the embedded code. -/
def claimClosedWindowCount (df : List DataRow) (r : DataRow) : Nat :=
  (df.filter (fun s => s.account_id == r.account_id &&
    match s.timestamp, r.timestamp with
    | some u, some t => decide (u ≤ t) && decide (t ≤ u + 86400)
    | _, _ => false)).length

/-- The window predicate the code actually realises: same account and
timestamp inside the HALF-OPEN interval `(t - 24h, t]` of the reference
row `r`. -/
def halfOpenMatch (s r : ERow) : Bool :=
  s.account_id == r.account_id &&
    match s.timestamp, r.timestamp with
    | some u, some t => decide (u ≤ t) && decide (t < u + 86400)
    | _, _ => false

/-- Uniform positive rescaling of the `amount` column of the input. -/
def scaleRow (k : ℚ) (r : DataRow) : DataRow := { r with amount := k * r.amount }

/-- The effect of that rescaling on an enriched row: `amount` and the
derived `avg_tx_amount` scale, everything else is untouched. -/
def scaleERow (k : ℚ) (r : ERow) : ERow :=
  { r with amount := k * r.amount, avg_tx_amount := k * r.avg_tx_amount }

/-- A stand-in for the timestamp parser inside
`pd.to_datetime(..., errors="coerce")`: a few known strings denote seconds
since the epoch, anything else fails to parse (becomes `NaT`). -/
def toyParse : String → Option Nat
  | "100" => some 100
  | "200" => some 200
  | _ => none

/-- Convenience constructor for working-table rows. -/
def mkTx (id acc : Nat) (amt : ℚ) (ts : Option Nat) (dev loc : String) : DataRow :=
  { txn_id := id, account_id := acc, amount := amt, tx_type := "NEFT",
    channel := "Web", timestamp := ts, device_id := dev, location := loc }

/-- Convenience constructor for caller-table rows (raw timestamp cell). -/
def mkRawTx (id acc : Nat) (amt : ℚ) (ts : String) (dev loc : String) : CallerRow :=
  { txn_id := id, account_id := acc, amount := amt, tx_type := "NEFT",
    channel := "Web", timestamp := TsVal.raw ts, device_id := dev, location := loc }

/-- Boundary fixture: two transactions of one account exactly 24 hours
apart. -/
def c1df : List DataRow :=
  [mkTx 1 1 10 (some 0) "D1" "M", mkTx 2 1 20 (some 86400) "D1" "M"]

/-- Fixture for the window-bounds witness. -/
def c2df : List DataRow :=
  [mkTx 1 1 10 (some 0) "D1" "M", mkTx 2 1 20 (some 3600) "D1" "M",
   mkTx 3 2 30 (some 0) "D2" "P"]

/-- Fixture with one unparseable timestamp among parseable ones. -/
def c3df : List CallerRow :=
  [mkRawTx 1 1 10 "garbage" "D1" "M", mkRawTx 2 1 20 "100" "D1" "M"]

/-- A caller row whose timestamp string does not parse. -/
def c4row : CallerRow := mkRawTx 1 1 10 "garbage" "D1" "M"

/-- Caller table for the mutation counterexample. -/
def c4df : List CallerRow := [c4row]

/-- `c4row` after the in-place `to_datetime` coercion. -/
def c4mut : CallerRow := { c4row with timestamp := TsVal.parsed none }

/-- The engineer's copy of `c4df`. -/
def c4eng : DataRow := mkTx 1 1 10 none "D1" "M"

/-- Fixture for the row-count witness. -/
def c6df : List DataRow :=
  [mkTx 1 1 5 (some 100) "D1" "M", mkTx 2 2 7 (some 200) "D2" "P"]

/-- Fixture for the scaling witness. -/
def c7df : List DataRow :=
  [mkTx 1 1 1 (some 0) "D1" "M", mkTx 2 1 10 (some 50) "D1" "M"]

/-- Fixture for the determinism witness. -/
def c8df : List CallerRow := [mkRawTx 1 1 5 "100" "D1" "M"]

/-- Out-of-order fixture: account 2 appears before account 1. -/
def c10df : List DataRow :=
  [mkTx 1 2 5 (some 100) "D1" "M", mkTx 2 1 7 (some 50) "D2" "P"]

/-- Working-table fixture with one `NaT` row next to a valid one. -/
def c9ddf : List DataRow :=
  [mkTx 1 1 10 none "D1" "M", mkTx 2 1 20 (some 0) "D1" "M"]

/-! ### Helper lemmas -/

theorem buildFeatures_eq_velocity_prep (df : List DataRow) :
    buildFeatures df = addVelocityFeatures (prep df) := rfl

theorem prep_map_base (df : List DataRow) : (prep df).map ERow.base = df := by
  have h : (prep df).map ERow.base = df.map (fun r => r) := by
    simp only [prep, addDeviceAndLocationFeatures, addBehavioralFeatures, addHighValueFlag,
      addTimeFeatures, List.map_map]
    exact List.map_congr_left (fun a _ => rfl)
  rw [h, List.map_id']

theorem prep_length (df : List DataRow) : (prep df).length = df.length := by
  have h := congrArg List.length (prep_map_base df)
  simpa using h

theorem addVelocityFeatures_ok {df out : List ERow}
    (h : addVelocityFeatures df = Except.ok out) :
    out = assignWindows (sortValues df) := by
  unfold addVelocityFeatures at h
  split at h
  · exact absurd h (by simp)
  · exact (Except.ok.inj h).symm

theorem buildFeatures_ok {df : List DataRow} {out : List ERow}
    (h : buildFeatures df = Except.ok out) :
    out = assignWindows (sortValues (prep df)) :=
  addVelocityFeatures_ok h

theorem mem_vsort_base_mem {df : List DataRow} {r : ERow}
    (h : r ∈ sortValues (prep df)) : r.base ∈ df := by
  have h1 : r ∈ prep df := (List.mem_insertionSort rowLE).mp h
  have h2 : r.base ∈ (prep df).map ERow.base := List.mem_map_of_mem ERow.base h1
  rwa [prep_map_base] at h2

theorem buildFeatures_ok_of_isSome {df : List DataRow}
    (hts : ∀ r ∈ df, r.timestamp.isSome) :
    buildFeatures df = Except.ok (assignWindows (sortValues (prep df))) := by
  rw [buildFeatures_eq_velocity_prep]
  unfold addVelocityFeatures
  rw [if_neg]
  intro hc
  rw [List.any_eq_true] at hc
  obtain ⟨r, hr, hnone⟩ := hc
  have hsome : r.timestamp.isSome := hts r.base (mem_vsort_base_mem hr)
  rw [Option.isNone_iff_eq_none] at hnone
  rw [hnone] at hsome
  exact absurd hsome (by simp)

theorem tsLEb_total (a b : Option Nat) : tsLEb a b = true ∨ tsLEb b a = true := by
  cases a <;> cases b <;> simp [tsLEb] <;> omega

theorem tsLEb_trans {a b c : Option Nat} (h1 : tsLEb a b = true)
    (h2 : tsLEb b c = true) : tsLEb a c = true := by
  cases a <;> cases b <;> cases c <;> simp_all [tsLEb] <;> omega

instance : IsTotal ERow rowLE := by
  constructor
  intro a b
  unfold rowLE
  rcases Nat.lt_trichotomy a.account_id b.account_id with h | h | h
  · exact Or.inl (Or.inl h)
  · rcases tsLEb_total a.timestamp b.timestamp with ht | ht
    · exact Or.inl (Or.inr ⟨h, ht⟩)
    · exact Or.inr (Or.inr ⟨h.symm, ht⟩)
  · exact Or.inr (Or.inl h)

instance : IsTrans ERow rowLE := by
  constructor
  intro a b c h1 h2
  unfold rowLE at h1 h2 ⊢
  rcases h1 with h1 | ⟨e1, t1⟩
  · rcases h2 with h2 | ⟨e2, _⟩
    · exact Or.inl (Nat.lt_trans h1 h2)
    · exact Or.inl (e2 ▸ h1)
  · rcases h2 with h2 | ⟨e2, t2⟩
    · exact Or.inl (e1 ▸ h2)
    · exact Or.inr ⟨e1.trans e2, tsLEb_trans t1 t2⟩

theorem rowLE_ts_of_account_eq {a b : ERow} (hle : rowLE a b)
    (hacc : a.account_id = b.account_id) : tsLEb a.timestamp b.timestamp = true := by
  rcases hle with h | ⟨_, h⟩
  · rw [hacc] at h
    exact absurd h (Nat.lt_irrefl _)
  · exact h

theorem tsLEb_some_le {u t : Nat} (h : tsLEb (some u) (some t) = true) : u ≤ t := by
  simpa [tsLEb] using h

/-- Two lists of equal length whose entries satisfy predicates in lockstep
have equal `countP`. -/
theorem countP_eq_of_pointwise {α β : Type} (p : α → Bool) (q : β → Bool) :
    ∀ (l₁ : List α) (l₂ : List β), l₁.length = l₂.length →
      (∀ j (h₁ : j < l₁.length) (h₂ : j < l₂.length),
        p (l₁.get ⟨j, h₁⟩) = q (l₂.get ⟨j, h₂⟩)) →
      l₁.countP p = l₂.countP q
  | [], [], _, _ => rfl
  | [], _ :: _, hlen, _ => by simp at hlen
  | _ :: _, [], hlen, _ => by simp at hlen
  | a :: t₁, b :: t₂, hlen, hpt => by
    have hab : p a = q b := hpt 0 (by simp) (by simp)
    have ht : t₁.countP p = t₂.countP q :=
      countP_eq_of_pointwise p q t₁ t₂ (by simpa using hlen)
        (fun j h₁ h₂ => hpt (j + 1) (by simpa using h₁) (by simpa using h₂))
    simp [List.countP_cons, hab, ht]

theorem windowCount_eq_countP (l : List ERow) (r : ERow) :
    windowCount l r =
      l.countP (fun s => s.account_id == r.account_id && inWindow s.timestamp r.timestamp) :=
  (List.countP_eq_length_filter _ _).symm

theorem assignWindows_length (l : List ERow) : (assignWindows l).length = l.length := by
  simp [assignWindows]

theorem assignWindows_get (l : List ERow) (i : Nat)
    (hi : i < (assignWindows l).length) (hl : i < l.length) :
    (assignWindows l).get ⟨i, hi⟩ =
      { l.get ⟨i, hl⟩ with
        tx_24h_window := windowCount (l.take (i + 1)) (l.get ⟨i, hl⟩) } := by
  simp [assignWindows, List.get_eq_getElem, List.getElem_mapIdx]

theorem sorted_sortValues (l : List ERow) : List.Sorted rowLE (sortValues l) :=
  List.sorted_insertionSort rowLE l

theorem vsort_get_timestamp_isSome {df : List DataRow}
    (hts : ∀ r ∈ df, r.timestamp.isSome) {i : Nat}
    (hi : i < (sortValues (prep df)).length) :
    ((sortValues (prep df)).get ⟨i, hi⟩).timestamp.isSome :=
  hts ((sortValues (prep df)).get ⟨i, hi⟩).base
    (mem_vsort_base_mem (List.get_mem _ _ hi))

/-- C5: constructing the Feature Engine fails with a validation error iff at
least one of the eight required columns is absent; the error names every
missing column; with all required columns present construction succeeds. -/
theorem C5_validation (parse : String → Option Nat) (cols : List String)
    (df : List CallerRow) :
    ((∀ c ∈ requiredCols, c ∈ cols) →
      ∃ res, engineerInit parse cols df = Except.ok res) ∧
    ((∃ c ∈ requiredCols, c ∉ cols) →
      ∃ m, engineerInit parse cols df = Except.error m) ∧
    (∀ m, engineerInit parse cols df = Except.error m →
      ∀ c, c ∈ m ↔ (c ∈ requiredCols ∧ c ∉ cols)) := by
  have hmem : ∀ c, c ∈ missingCols cols ↔ (c ∈ requiredCols ∧ c ∉ cols) := by
    intro c
    simp [missingCols, List.mem_filter]
  refine ⟨?_, ?_, ?_⟩
  · intro hall
    have hnil : missingCols cols = [] := by
      rw [List.eq_nil_iff_forall_not_mem]
      intro c hc
      obtain ⟨h1, h2⟩ := (hmem c).mp hc
      exact h2 (hall c h1)
    exact ⟨_, by unfold engineerInit; rw [if_pos hnil]⟩
  · intro hex
    obtain ⟨c, hc, hnc⟩ := hex
    have hne : missingCols cols ≠ [] := by
      intro hnil
      have hcm : c ∈ missingCols cols := (hmem c).mpr ⟨hc, hnc⟩
      rw [hnil] at hcm
      exact absurd hcm (List.not_mem_nil c)
    exact ⟨_, by unfold engineerInit; rw [if_neg hne]⟩
  · intro m hm c
    unfold engineerInit at hm
    by_cases hnil : missingCols cols = []
    · rw [if_pos hnil] at hm
      exact absurd hm (by simp)
    · rw [if_neg hnil] at hm
      have hme : m = missingCols cols := (Except.error.inj hm).symm
      rw [hme]
      exact hmem c

/-- Witness for C5 at concrete inputs: with all columns present construction
succeeds; with only `txn_id` present it fails with an error naming
`device_id`. -/
theorem C5_validation_witness :
    (∃ res, engineerInit toyParse requiredCols ([] : List CallerRow) = Except.ok res) ∧
    (∃ m, engineerInit toyParse ["txn_id"] ([] : List CallerRow) = Except.error m ∧
      "device_id" ∈ m) := by
  constructor
  · exact (C5_validation toyParse requiredCols []).1 (by intro c hc; exact hc)
  · obtain ⟨m, hm⟩ := (C5_validation toyParse ["txn_id"] []).2.1
      ⟨"device_id", by decide, by decide⟩
    exact ⟨m, hm, ((C5_validation toyParse ["txn_id"] []).2.2 m hm "device_id").mpr
      ⟨by decide, by decide⟩⟩

/-- C6: when `build_features` returns a table, it has exactly as many rows
as the input table. -/
theorem C6_row_count (df : List DataRow) (out : List ERow)
    (h : buildFeatures df = Except.ok out) : out.length = df.length := by
  rw [buildFeatures_ok h]
  simp only [assignWindows, List.length_mapIdx, sortValues, List.length_insertionSort]
  exact prep_length df

/-- Witness for C6 on a concrete two-row table. -/
theorem C6_row_count_witness :
    (assignWindows (sortValues (prep c6df))).length = c6df.length :=
  C6_row_count c6df _ rfl

/-- C8: the Feature Engine is a deterministic function of its input — two
runs on identical copies of a table produce identical results (mutated
caller table and enriched output alike). -/
theorem C8_determinism (parse : String → Option Nat) (cols : List String)
    (df₁ df₂ : List CallerRow) (h : df₁ = df₂) :
    engineerRun parse cols df₁ = engineerRun parse cols df₂ := by
  rw [h]

/-- Witness for C8 on a concrete run. -/
theorem C8_determinism_witness :
    engineerRun toyParse requiredCols c8df = engineerRun toyParse requiredCols c8df :=
  C8_determinism toyParse requiredCols c8df c8df rfl

/-- C3 is a code bug: `errors="coerce"` deliberately turns unparseable
timestamps into `NaT`, but `rolling("1D")` then refuses the `NaT` index, so
`build_features` aborts instead of emitting the row with null features.
Here validation succeeds and the engine table is built (the unparseable row
kept, its timestamp `NaT`), yet the pipeline returns an error. -/
theorem C3_unparseable_timestamp_aborts :
    (engineerRun toyParse requiredCols c3df).map (fun p => p.2) =
      Except.ok (Except.error "window must be monotonic") := rfl

/-- Counterexample to C4: the caller's table is mutated in place —
`__init__` overwrites its `timestamp` column with the coerced values before
copying, so after construction the caller's row no longer equals the row
passed in. -/
theorem C4_counterexample :
    (engineerInit toyParse requiredCols c4df).map Prod.fst = Except.ok [c4mut] ∧
    [c4mut] ≠ c4df :=
  ⟨rfl, by decide⟩

/-- C4 amended: construction rewrites exactly the caller's `timestamp`
column in place (each cell coerced as `to_datetime(..., errors="coerce")`
would); every other column of every row is unchanged, and no rows are added
or dropped. -/
theorem C4_amended_inplace_coercion (parse : String → Option Nat)
    (cols : List String) (df caller : List CallerRow) (eng : List DataRow)
    (h : engineerInit parse cols df = Except.ok (caller, eng)) :
    caller.length = df.length ∧
    ∀ i (hi : i < caller.length) (hd : i < df.length),
      (caller.get ⟨i, hi⟩).txn_id = (df.get ⟨i, hd⟩).txn_id ∧
      (caller.get ⟨i, hi⟩).account_id = (df.get ⟨i, hd⟩).account_id ∧
      (caller.get ⟨i, hi⟩).amount = (df.get ⟨i, hd⟩).amount ∧
      (caller.get ⟨i, hi⟩).tx_type = (df.get ⟨i, hd⟩).tx_type ∧
      (caller.get ⟨i, hi⟩).channel = (df.get ⟨i, hd⟩).channel ∧
      (caller.get ⟨i, hi⟩).device_id = (df.get ⟨i, hd⟩).device_id ∧
      (caller.get ⟨i, hi⟩).location = (df.get ⟨i, hd⟩).location ∧
      (caller.get ⟨i, hi⟩).timestamp =
        TsVal.parsed (coerceTs parse (df.get ⟨i, hd⟩).timestamp) := by
  have hc : caller = df.map (mapTsCell (fun t => TsVal.parsed (coerceTs parse t))) := by
    unfold engineerInit at h
    split at h
    · have hp := Except.ok.inj h
      exact (congrArg Prod.fst hp).symm
    · exact absurd h (by simp)
  subst hc
  refine ⟨by simp, ?_⟩
  intro i hi hd
  simp only [List.get_map]
  exact ⟨rfl, rfl, rfl, rfl, rfl, rfl, rfl, rfl⟩

/-- Witness for the amended C4 at a concrete input: the length is kept and
the single row's timestamp cell is the coerced value. -/
theorem C4_amended_witness :
    [c4mut].length = c4df.length ∧
    ([c4mut].get ⟨0, by decide⟩).timestamp =
      TsVal.parsed (coerceTs toyParse (c4df.get ⟨0, by decide⟩).timestamp) := by
  have h := C4_amended_inplace_coercion toyParse requiredCols c4df [c4mut] [c4eng] rfl
  exact ⟨h.1, (h.2 0 (by decide) (by decide)).2.2.2.2.2.2.2⟩

theorem sortValues_perm (l : List ERow) : List.Perm (sortValues l) l :=
  List.perm_insertionSort rowLE l

/-- C2: with all timestamps parseable, every output row's `tx_24h_window`
is at least 1 (the row counts itself, the window's right end being closed)
and at most the number of input rows sharing its account. -/
theorem C2_window_bounds (df : List DataRow)
    (hts : ∀ r ∈ df, r.timestamp.isSome) (out : List ERow)
    (h : buildFeatures df = Except.ok out) :
    ∀ i (hi : i < out.length),
      1 ≤ (out.get ⟨i, hi⟩).tx_24h_window ∧
      (out.get ⟨i, hi⟩).tx_24h_window ≤
        (df.filter (fun r => r.account_id == (out.get ⟨i, hi⟩).account_id)).length := by
  have hout := buildFeatures_ok h
  subst hout
  intro i hi
  have hls : i < (sortValues (prep df)).length := by
    simpa [assignWindows_length] using hi
  rw [assignWindows_get _ i hi hls]
  have hsome := vsort_get_timestamp_isSome hts hls
  set vs := sortValues (prep df) with hvsdef
  set ri := vs.get ⟨i, hls⟩ with hridef
  obtain ⟨t, htt⟩ := Option.isSome_iff_exists.mp hsome
  show 1 ≤ windowCount (vs.take (i + 1)) ri ∧
    windowCount (vs.take (i + 1)) ri ≤
      (df.filter (fun r => r.account_id == ri.account_id)).length
  constructor
  · have h1 : i < (vs.take (i + 1)).length := by
      rw [List.length_take]
      omega
    have h2 : (vs.take (i + 1)).get ⟨i, h1⟩ = ri := by
      simp [List.get_eq_getElem, List.getElem_take, hridef]
    have hmem : ri ∈ vs.take (i + 1) := by
      rw [← h2]
      exact List.get_mem _ _ h1
    have hpred : (ri.account_id == ri.account_id &&
        inWindow ri.timestamp ri.timestamp) = true := by
      simp [inWindow, htt]
    have hmf : ri ∈ (vs.take (i + 1)).filter
        (fun s => s.account_id == ri.account_id && inWindow s.timestamp ri.timestamp) :=
      List.mem_filter.mpr ⟨hmem, hpred⟩
    exact List.length_pos_of_mem hmf
  · rw [windowCount_eq_countP]
    have h1 : (vs.take (i + 1)).countP
        (fun s => s.account_id == ri.account_id && inWindow s.timestamp ri.timestamp) ≤
        vs.countP
          (fun s => s.account_id == ri.account_id && inWindow s.timestamp ri.timestamp) :=
      List.Sublist.countP_le _ (List.take_sublist _ _)
    have h2 : vs.countP
        (fun s => s.account_id == ri.account_id && inWindow s.timestamp ri.timestamp) ≤
        vs.countP (fun s => s.account_id == ri.account_id) :=
      List.countP_mono_left (fun x _ hx => (Bool.and_eq_true_iff.mp hx).1)
    have h3 : vs.countP (fun s => s.account_id == ri.account_id) =
        df.countP (fun r => r.account_id == ri.account_id) := by
      rw [(sortValues_perm (prep df)).countP_eq]
      conv_rhs => rw [← prep_map_base df]
      rw [List.countP_map]
      rfl
    rw [← List.countP_eq_length_filter]
    exact le_trans h1 (le_trans h2 (le_of_eq h3))

/-- Witness for C2 at a concrete three-row table, row 0. -/
theorem C2_window_bounds_witness :
    1 ≤ ((assignWindows (sortValues (prep c2df))).get ⟨0, by decide⟩).tx_24h_window ∧
    ((assignWindows (sortValues (prep c2df))).get ⟨0, by decide⟩).tx_24h_window ≤
      (c2df.filter (fun r => r.account_id ==
        ((assignWindows (sortValues (prep c2df))).get ⟨0, by decide⟩).account_id)).length :=
  C2_window_bounds c2df (by decide) _ rfl 0 (by decide)

theorem window_pred_eq_halfOpen {a b : ERow} {u t : Nat}
    (hu : a.timestamp = some u) (ht : b.timestamp = some t)
    (hut : a.account_id = b.account_id → u ≤ t) :
    (a.account_id == b.account_id && inWindow a.timestamp b.timestamp) =
      halfOpenMatch a b := by
  by_cases hacc : a.account_id = b.account_id
  · have hle := hut hacc
    simp [halfOpenMatch, inWindow, hu, ht, hacc, hle]
  · have hbeq : (a.account_id == b.account_id) = false := by
      simp [hacc]
    simp [halfOpenMatch, hbeq]

/-- C1 amended: with all timestamps parseable, each output row's
`tx_24h_window` counts, among the rows at positions up to and including its
own in the sorted output, those of the same account whose timestamp lies in
the half-open interval `(t - 24h, t]` — the left endpoint (exactly 24 hours
earlier) excluded. -/
theorem C1_amended_halfopen_window (df : List DataRow)
    (hts : ∀ r ∈ df, r.timestamp.isSome) (out : List ERow)
    (h : buildFeatures df = Except.ok out) :
    ∀ i (hi : i < out.length),
      (out.get ⟨i, hi⟩).tx_24h_window =
        ((out.take (i + 1)).filter
          (fun s => halfOpenMatch s (out.get ⟨i, hi⟩))).length := by
  have hout := buildFeatures_ok h
  subst hout
  intro i hi
  have hls : i < (sortValues (prep df)).length := by
    simpa [assignWindows_length] using hi
  rw [assignWindows_get _ i hi hls, ← List.countP_eq_length_filter]
  show windowCount ((sortValues (prep df)).take (i + 1))
      ((sortValues (prep df)).get ⟨i, hls⟩) =
    ((assignWindows (sortValues (prep df))).take (i + 1)).countP
      (fun s => halfOpenMatch s ((sortValues (prep df)).get ⟨i, hls⟩))
  rw [windowCount_eq_countP]
  obtain ⟨t, ht⟩ := Option.isSome_iff_exists.mp (vsort_get_timestamp_isSome hts hls)
  apply countP_eq_of_pointwise
  · simp [List.length_take, assignWindows_length]
  · intro j h₁ h₂
    have hjl : j < (sortValues (prep df)).length := by
      rw [List.length_take] at h₁
      omega
    have hji : j ≤ i := by
      rw [List.length_take] at h₁
      omega
    have hja : j < (assignWindows (sortValues (prep df))).length := by
      rw [assignWindows_length]
      exact hjl
    have e1 : ((sortValues (prep df)).take (i + 1)).get ⟨j, h₁⟩ =
        (sortValues (prep df)).get ⟨j, hjl⟩ := by
      simp [List.get_eq_getElem, List.getElem_take]
    have e2 : ((assignWindows (sortValues (prep df))).take (i + 1)).get ⟨j, h₂⟩ =
        (assignWindows (sortValues (prep df))).get ⟨j, hja⟩ := by
      simp [List.get_eq_getElem, List.getElem_take]
    rw [e1, e2, assignWindows_get _ j hja hjl]
    obtain ⟨u, hu⟩ :=
      Option.isSome_iff_exists.mp (vsort_get_timestamp_isSome hts hjl)
    show (((sortValues (prep df)).get ⟨j, hjl⟩).account_id ==
          ((sortValues (prep df)).get ⟨i, hls⟩).account_id &&
        inWindow ((sortValues (prep df)).get ⟨j, hjl⟩).timestamp
          ((sortValues (prep df)).get ⟨i, hls⟩).timestamp) =
      halfOpenMatch ((sortValues (prep df)).get ⟨j, hjl⟩)
        ((sortValues (prep df)).get ⟨i, hls⟩)
    apply window_pred_eq_halfOpen hu ht
    intro hacc
    rcases Nat.lt_or_ge j i with hj | hj
    · have hfin : (⟨j, hjl⟩ : Fin (sortValues (prep df)).length) < ⟨i, hls⟩ := hj
      have hle := (sorted_sortValues (prep df)).rel_get_of_lt hfin
      have hts2 := rowLE_ts_of_account_eq hle hacc
      rw [hu, ht] at hts2
      exact tsLEb_some_le hts2
    · have hje : j = i := by omega
      subst hje
      have := hu.symm.trans ht
      exact Nat.le_of_eq (Option.some.inj this)

/-- Witness for the amended C1 at the boundary fixture, row 1 (the later
transaction, exactly 24 hours after the first). -/
theorem C1_amended_witness :
    ((assignWindows (sortValues (prep c1df))).get ⟨1, by decide⟩).tx_24h_window =
      (((assignWindows (sortValues (prep c1df))).take (1 + 1)).filter
        (fun s => halfOpenMatch s
          ((assignWindows (sortValues (prep c1df))).get ⟨1, by decide⟩))).length :=
  C1_amended_halfopen_window c1df (by decide) _ rfl 1 (by decide)

/-- Counterexample to C1: two transactions of one account exactly 24 hours
apart, all timestamps parseable.  The code's windows are `[1, 1]` while the
claim's closed-interval counts are `[1, 2]`: the transaction exactly 24
hours earlier is NOT counted (pandas offset windows are `closed="right"`). -/
theorem C1_counterexample :
    (∀ r ∈ c1df, r.timestamp.isSome) ∧
    (buildFeatures c1df).map (List.map ERow.tx_24h_window) = Except.ok [1, 1] ∧
    c1df.map (claimClosedWindowCount c1df) = [1, 2] ∧
    (buildFeatures c1df).map (List.map ERow.tx_24h_window) ≠
      Except.ok (c1df.map (claimClosedWindowCount c1df)) :=
  ⟨by decide, rfl, rfl, by
    intro heq
    rw [show (buildFeatures c1df).map (List.map ERow.tx_24h_window) =
          Except.ok [1, 1] from rfl,
        show c1df.map (claimClosedWindowCount c1df) = [1, 2] from rfl] at heq
    exact absurd (Except.ok.inj heq) (by decide)⟩

/-- C10: whenever `build_features` returns, its table is sorted ascending by
(account_id, timestamp) — the `sort_values` of `add_velocity_features`, run
last, determines the output order — and its rows (original columns) are a
permutation of the input rows. -/
theorem C10_sorted_permutation (df : List DataRow) (out : List ERow)
    (h : buildFeatures df = Except.ok out) :
    List.Sorted rowLE out ∧ List.Perm (out.map ERow.base) df := by
  have hout := buildFeatures_ok h
  subst hout
  constructor
  · have hs := sorted_sortValues (prep df)
    unfold List.Sorted at hs ⊢
    rw [List.pairwise_iff_getElem] at hs ⊢
    intro a b ha hb hab
    have ha2 : a < (sortValues (prep df)).length := by
      rw [assignWindows_length] at ha
      exact ha
    have hb2 : b < (sortValues (prep df)).length := by
      rw [assignWindows_length] at hb
      exact hb
    simp only [assignWindows, List.getElem_mapIdx]
    exact hs a b ha2 hb2 hab
  · have hmapeq : (assignWindows (sortValues (prep df))).map ERow.base =
        (sortValues (prep df)).map ERow.base := by
      apply List.ext_getElem
      · simp [assignWindows_length]
      · intro i h1 h2
        simp [assignWindows, List.getElem_mapIdx, ERow.base]
    have hperm := (sortValues_perm (prep df)).map ERow.base
    rw [prep_map_base df] at hperm
    rw [hmapeq]
    exact hperm

/-- Witness for C10 on an out-of-order fixture; the extra conjunct shows the
caller's original row order is indeed not preserved there. -/
theorem C10_sorted_permutation_witness :
    (List.Sorted rowLE (assignWindows (sortValues (prep c10df))) ∧
      List.Perm ((assignWindows (sortValues (prep c10df))).map ERow.base) c10df) ∧
    (assignWindows (sortValues (prep c10df))).map (fun r => r.txn_id) ≠
      c10df.map (fun r => r.txn_id) :=
  ⟨C10_sorted_permutation c10df _ rfl, by decide⟩

theorem accountGroup_map (g : ERow → ERow)
    (hg : ∀ r, (g r).account_id = r.account_id) (l : List ERow) (acc : Nat) :
    accountGroup (l.map g) acc = (accountGroup l acc).map g := by
  unfold accountGroup
  rw [List.filter_map]
  exact congrArg (List.map g)
    (List.filter_congr (fun a _ => by simp only [Function.comp]; rw [hg a]))

/-- C9: rows keep contributing to every per-account groupwise aggregate
(`tx_count_24h`, `avg_tx_amount`, `unique_devices`, `unique_locations`)
whatever their timestamp cell holds — rewriting the timestamps arbitrarily
(in particular to `NaT`, the fate of an unparseable timestamp) leaves all
four aggregates of every row unchanged. -/
theorem C9_aggregates_ignore_timestamp (df : List ERow) (f : ERow → Option Nat) :
    ((addBehavioralFeatures (df.map (fun r => { r with timestamp := f r }))).map
        (fun r => (r.tx_count_24h, r.avg_tx_amount)) =
      (addBehavioralFeatures df).map
        (fun r => (r.tx_count_24h, r.avg_tx_amount))) ∧
    ((addDeviceAndLocationFeatures (df.map (fun r => { r with timestamp := f r }))).map
        (fun r => (r.unique_devices, r.unique_locations)) =
      (addDeviceAndLocationFeatures df).map
        (fun r => (r.unique_devices, r.unique_locations))) := by
  have hg : ∀ r : ERow, (({ r with timestamp := f r } : ERow)).account_id = r.account_id :=
    fun r => rfl
  constructor
  · unfold addBehavioralFeatures
    simp only [List.map_map]
    apply List.map_congr_left
    intro a _
    simp only [Function.comp]
    rw [accountGroup_map (fun r => { r with timestamp := f r }) hg df]
    simp only [List.length_map, List.map_map, Prod.mk.injEq]
    exact ⟨trivial, rfl⟩
  · unfold addDeviceAndLocationFeatures
    simp only [List.map_map]
    apply List.map_congr_left
    intro a _
    simp only [Function.comp]
    rw [accountGroup_map (fun r => { r with timestamp := f r }) hg df]
    simp only [List.map_map, Prod.mk.injEq]
    exact ⟨rfl, rfl⟩

theorem toERow_scale (k : ℚ) (df : List DataRow) :
    (df.map (scaleRow k)).map toERow = (df.map toERow).map (scaleERow k) := by
  simp only [List.map_map]
  apply List.map_congr_left
  intro a _
  show toERow (scaleRow k a) = scaleERow k (toERow a)
  simp [toERow, scaleRow, scaleERow]

theorem addTime_scale (k : ℚ) (l : List ERow) :
    addTimeFeatures (l.map (scaleERow k)) = (addTimeFeatures l).map (scaleERow k) := by
  unfold addTimeFeatures
  simp only [List.map_map]
  rfl

theorem meanAmount_scale (k : ℚ) (l : List ERow) :
    meanAmount (l.map (scaleERow k)) = k * meanAmount l := by
  unfold meanAmount
  rw [List.map_map, List.length_map]
  have he : l.map (ERow.amount ∘ scaleERow k) = l.map (fun r => k * r.amount) := rfl
  rw [he, List.sum_map_mul_left, mul_div_assoc]

theorem addHighValue_scale (k : ℚ) (hk : 0 < k) (l : List ERow) :
    addHighValueFlag (l.map (scaleERow k)) = (addHighValueFlag l).map (scaleERow k) := by
  unfold addHighValueFlag
  simp only [List.map_map]
  apply List.map_congr_left
  intro a _
  simp only [Function.comp]
  have hiff : (meanAmount (l.map (scaleERow k)) * 3 < (scaleERow k a).amount) ↔
      (meanAmount l * 3 < a.amount) := by
    rw [meanAmount_scale]
    show k * meanAmount l * 3 < k * a.amount ↔ _
    rw [mul_assoc]
    exact mul_lt_mul_left hk
  by_cases hc : meanAmount l * 3 < a.amount
  · rw [if_pos (hiff.mpr hc), if_pos hc]
    rfl
  · rw [if_neg (fun hx => hc (hiff.mp hx)), if_neg hc]
    rfl

theorem addBehavioral_scale (k : ℚ) (l : List ERow) :
    addBehavioralFeatures (l.map (scaleERow k)) =
      (addBehavioralFeatures l).map (scaleERow k) := by
  unfold addBehavioralFeatures
  simp only [List.map_map]
  apply List.map_congr_left
  intro a _
  simp only [Function.comp]
  rw [accountGroup_map (scaleERow k) (fun r => rfl) l]
  simp only [List.length_map, List.map_map]
  have hsum : ((accountGroup l (scaleERow k a).account_id).map
        (ERow.amount ∘ scaleERow k)).sum =
      k * ((accountGroup l (scaleERow k a).account_id).map ERow.amount).sum := by
    rw [show (accountGroup l (scaleERow k a).account_id).map (ERow.amount ∘ scaleERow k) =
        (accountGroup l (scaleERow k a).account_id).map (fun r => k * r.amount) from rfl,
      List.sum_map_mul_left]
  rw [hsum, mul_div_assoc]
  rfl

theorem addDevLoc_scale (k : ℚ) (l : List ERow) :
    addDeviceAndLocationFeatures (l.map (scaleERow k)) =
      (addDeviceAndLocationFeatures l).map (scaleERow k) := by
  unfold addDeviceAndLocationFeatures
  simp only [List.map_map]
  apply List.map_congr_left
  intro a _
  simp only [Function.comp]
  rw [accountGroup_map (scaleERow k) (fun r => rfl) l]
  simp only [List.map_map]
  rfl

theorem orderedInsert_scale (k : ℚ) (a : ERow) (l : List ERow) :
    (l.map (scaleERow k)).orderedInsert rowLE (scaleERow k a) =
      (l.orderedInsert rowLE a).map (scaleERow k) := by
  induction l with
  | nil => rfl
  | cons b t ih =>
    show List.orderedInsert rowLE (scaleERow k a)
        (scaleERow k b :: t.map (scaleERow k)) = _
    simp only [List.orderedInsert]
    by_cases h : rowLE a b
    · rw [if_pos (show rowLE (scaleERow k a) (scaleERow k b) from h), if_pos h]
      rfl
    · rw [if_neg (show ¬ rowLE (scaleERow k a) (scaleERow k b) from h), if_neg h,
        List.map_cons, ih]

theorem insertionSort_scale (k : ℚ) (l : List ERow) :
    List.insertionSort rowLE (l.map (scaleERow k)) =
      (List.insertionSort rowLE l).map (scaleERow k) := by
  induction l with
  | nil => rfl
  | cons b t ih =>
    show List.orderedInsert rowLE (scaleERow k b)
        (List.insertionSort rowLE (t.map (scaleERow k))) = _
    rw [ih, orderedInsert_scale]
    rfl

theorem sortValues_scale (k : ℚ) (l : List ERow) :
    sortValues (l.map (scaleERow k)) = (sortValues l).map (scaleERow k) :=
  insertionSort_scale k l

theorem windowCount_scale (k : ℚ) (l : List ERow) (r : ERow) :
    windowCount (l.map (scaleERow k)) (scaleERow k r) = windowCount l r := by
  unfold windowCount
  rw [List.filter_map, List.length_map]
  rfl

theorem assignWindows_scale (k : ℚ) (l : List ERow) :
    assignWindows (l.map (scaleERow k)) = (assignWindows l).map (scaleERow k) := by
  apply List.ext_getElem
  · simp [assignWindows_length]
  · intro i h1 h2
    simp only [assignWindows, List.getElem_mapIdx, List.getElem_map]
    rw [← List.map_take, windowCount_scale]
    rfl

theorem addVelocity_scale (k : ℚ) (l : List ERow) :
    addVelocityFeatures (l.map (scaleERow k)) =
      (addVelocityFeatures l).map (List.map (scaleERow k)) := by
  unfold addVelocityFeatures
  rw [sortValues_scale, List.any_map]
  have hpred : ((fun r : ERow => r.timestamp.isNone) ∘ scaleERow k) =
      (fun r : ERow => r.timestamp.isNone) := rfl
  rw [hpred]
  by_cases hc : (sortValues l).any (fun r => r.timestamp.isNone) = true
  · rw [if_pos hc, if_pos hc]
    rfl
  · rw [if_neg hc, if_neg hc]
    show Except.ok (assignWindows ((sortValues l).map (scaleERow k))) =
      Except.ok ((assignWindows (sortValues l)).map (scaleERow k))
    rw [assignWindows_scale]

theorem prep_scale (k : ℚ) (hk : 0 < k) (df : List DataRow) :
    prep (df.map (scaleRow k)) = (prep df).map (scaleERow k) := by
  unfold prep
  rw [toERow_scale, addTime_scale, addHighValue_scale k hk, addBehavioral_scale,
    addDevLoc_scale]

theorem buildFeatures_scale (k : ℚ) (hk : 0 < k) (df : List DataRow) :
    buildFeatures (df.map (scaleRow k)) =
      (buildFeatures df).map (List.map (scaleERow k)) := by
  rw [buildFeatures_eq_velocity_prep, buildFeatures_eq_velocity_prep, prep_scale k hk,
    addVelocity_scale]

/-- C7: multiplying every amount by a positive constant leaves the
`is_high_value` column of the enriched output unchanged row for row (the
global mean scales by the same factor, so the strict comparison against
three times the mean is invariant; errors are unaffected too). -/
theorem C7_scale_invariance (df : List DataRow) (k : ℚ) (hk : 0 < k) :
    (buildFeatures (df.map (scaleRow k))).map (List.map ERow.is_high_value) =
      (buildFeatures df).map (List.map ERow.is_high_value) := by
  rw [buildFeatures_scale k hk]
  cases h : buildFeatures df with
  | error e => rfl
  | ok out =>
    show Except.ok (((out.map (scaleERow k))).map ERow.is_high_value) =
      Except.ok (out.map ERow.is_high_value)
    rw [List.map_map]
    rfl

/-- Witness for C7 at a concrete table with factor 2. -/
theorem C7_scale_invariance_witness :
    (buildFeatures (c7df.map (scaleRow 2))).map (List.map ERow.is_high_value) =
      (buildFeatures c7df).map (List.map ERow.is_high_value) :=
  C7_scale_invariance c7df 2 (by norm_num)

/-- Counterexample to C9 as literally stated: the `NaT` row is not merely
"excluded from `tx_24h_window`" — its presence makes `build_features`
abort, so no enriched table (and no window column) exists at all. -/
theorem C9_counterexample :
    buildFeatures c9ddf = Except.error "window must be monotonic" := rfl

end FraudDetection
